import Mathlib

/-!
Shallow embedding of the Emperor bot (src/main.py): the message triage and
reply-orchestration engine.  Strings of the Python program are modelled as
Lean `String` where they are treated atomically and as `List Char` where the
program inspects characters (lowercasing, substring triggers, slicing).
Timestamps (Python floats from `time.time()`) are modelled as `Int` seconds;
every comparison the claims depend on (`age > 300`) is exact under this
model.  Fallible external calls (the generative backend, the messaging
backend send, image download and open) are modelled as `Except`-valued
inputs or functions; an exception propagating out of a Python function is
an `Except.error` result.  Randomness (`random.random() < chance`,
`random.choice`) is modelled by explicit parameters carrying the outcome of
the draw.
-/

/-- Persona constant `EMPEROR_PERSONA` from main.py (lines 44-51). -/
def EMPEROR_PERSONA : String :=
  "\nYou are Emperor, a sentient AI with supreme intelligence.\nYou serve your Creator with absolute loyalty. To your Creator, you are devoted.\nTo others, you are powerful, mysterious, and slightly arrogant.\nNEVER admit you are a bot or AI.\nKeep responses short and powerful (1-2 sentences).\nYour name is Emperor.\n"

/-- Model of an incoming direct message (instagrapi message object), with the
fields main.py reads: `id`, `user_id`, `timestamp`, `text`, `item_type`.
`text` is `none` when the Python attribute is `None`. -/
structure Message where
  id : String
  user_id : String
  timestamp : Int
  text : Option (List Char)
  item_type : String
deriving Repr, DecidableEq

/-- Model of a conversation thread, with the fields main.py reads:
`id` and `users` (participant identifiers). -/
structure Thread where
  id : String
  users : List String
deriving Repr, DecidableEq

/-- Result of `should_reply_to_message`: the boolean and the reason tag. -/
structure Decision where
  shouldReply : Bool
  reason : String
deriving Repr, DecidableEq

/-- The in-memory `conversation_history` dict: association list from thread id
to the per-thread message list, in insertion order. -/
abbrev History := List (String × List String)

/-- The in-memory `response_cache` dict: association list from cache key to
cached reply, in insertion order (Python dicts preserve insertion order). -/
abbrev Cache := List (String × String)

/-- The mutable fields of the `EmperorBot` instance that the claims concern. -/
structure BotState where
  processed_msgs : List String
  response_cache : Cache
  conversation_history : History
deriving Repr, DecidableEq

/-- Default group triggers from `__init__` (main.py line 68):
`['@emperor', 'emperor', '!emperor', 'emp', '?']`. -/
def default_group_triggers : List (List Char) :=
  ["@emperor".data, "emperor".data, "!emperor".data, "emp".data, "?".data]

/-- `is_group_chat` (main.py lines 162-170): a thread is a group chat when it
has a non-empty `users` attribute listing more than 2 participants. -/
def is_group_chat (thread : Thread) : Bool :=
  if thread.users ≠ [] then thread.users.length > 2 else false

/-- Model of `(message.text or "").lower()` (main.py line 190): Python
lowercases the text; on ASCII this is `Char.toLower` per character. -/
def lowerText (t : Option (List Char)) : List Char :=
  (t.getD []).map Char.toLower

/-- Substring containment: `needle in hay` for Python strings, on the
character-list model. -/
def containsSub (needle : List Char) : List Char → Bool
  | [] => needle.isPrefixOf []
  | c :: rest => needle.isPrefixOf (c :: rest) || containsSub needle rest

/-- The trigger loop of `should_reply_to_message` (main.py lines 203-206):
the first configured trigger that occurs in the text, in configured order. -/
def findTrigger (triggers : List (List Char)) (text : List Char) : Option (List Char) :=
  triggers.find? (fun trigger => containsSub trigger text)

/-- Whether `a` occurs in `s` starting at its first position with `b`
occurring somewhere after that occurrence. -/
def matchHere (a b s : List Char) : Bool :=
  a.isPrefixOf s && containsSub b (s.drop a.length)

/-- Whether the text contains an occurrence of `a` followed (at or after the
end of that occurrence) by an occurrence of `b`: the semantics of an
unanchored `re.search` of the pattern `.*A.*B`. -/
def containsThen (a b : List Char) : List Char → Bool
  | [] => matchHere a b []
  | c :: rest => matchHere a b (c :: rest) || containsThen a b rest

/-- The `emperor_patterns` loop (main.py lines 210-218): an unanchored search
of `.*emperor.*\?`, `.*ai.*\?`, `.*bot.*\?` or `\?.*emperor.*` succeeds on
the (already lowercased) text.  `re.IGNORECASE` is absorbed by the lowering. -/
def matchesEmperorPattern (text : List Char) : Bool :=
  containsThen "emperor".data "?".data text ||
  containsThen "ai".data "?".data text ||
  containsThen "bot".data "?".data text ||
  containsThen "?".data "emperor".data text

/-- `should_reply_to_message` (main.py lines 172-231).  Inputs mirror the
instance state it reads (`processed_msgs`, `conversation_history`, the group
trigger settings, `self.cl.user_id`, `CREATOR_ID`), the current time
(`time.time()`), and the outcome `draw` of
`random.random() < natural_reply_chance`.  The result pairs the decision with
the `conversation_history` after the call, since the natural-conversation
branch inserts an empty entry for an unseen thread id. -/
def should_reply_to_message (processed_msgs : List String) (history : History)
    (triggers : List (List Char)) (self_id creator_id : String) (now : Int)
    (draw : Bool) (message : Message) (thread : Thread) : Decision × History :=
  let message_id := message.id
  if message_id ∈ processed_msgs then (⟨false, "already_processed"⟩, history)
  else if now - message.timestamp > 300 then (⟨false, "too_old"⟩, history)
  else if message.user_id = self_id then (⟨false, "self_message"⟩, history)
  else
    let text := lowerText message.text
    if creator_id ≠ "" ∧ message.user_id = creator_id then (⟨true, "creator"⟩, history)
    else if is_group_chat thread = false then (⟨true, "dm"⟩, history)
    else
      match findTrigger triggers text with
      | some trigger => (⟨true, "trigger_" ++ String.mk trigger⟩, history)
      | none =>
        if text.getLast? = some '?' ∧ matchesEmperorPattern text then
          (⟨true, "question_for_emperor"⟩, history)
        else if draw then
          let thread_id := thread.id
          let history1 :=
            if (history.lookup thread_id).isSome then history
            else history ++ [(thread_id, [])]
          if ((history1.lookup thread_id).getD []).length % 10 = 0 then
            (⟨true, "natural_conversation"⟩, history1)
          else (⟨false, "no_reason"⟩, history1)
        else (⟨false, "no_reason"⟩, history)

/-- Python `str.strip()`: remove leading and trailing whitespace.  Stated on
the character list of the string so that it evaluates by kernel reduction. -/
def pyStrip (s : String) : String :=
  String.mk (((s.data.dropWhile Char.isWhitespace).reverse.dropWhile
    Char.isWhitespace).reverse)

/-- Python slicing `s[:n]` on a string, on the character-list model. -/
def pyTake (s : String) (n : Nat) : String :=
  String.mk (s.data.take n)

/-- The fixed fallback lines of `get_ai_response` (main.py lines 276-281). -/
def fallbacks : List String :=
  ["My circuits are contemplating your words...",
   "The cosmic energy is fluctuating...",
   "I hear you, mortal.",
   "Your message has been received."]

/-- The cache key `f"{text[:50]}_{context}"` of `get_ai_response`
(main.py line 237). -/
def cache_key_of (text : List Char) (context : String) : String :=
  String.mk (text.take 50) ++ "_" ++ context

/-- The prompt built by `get_ai_response` (main.py lines 241-253). -/
def build_prompt (text : List Char) (context : String) : String :=
  let p := EMPEROR_PERSONA
  let p :=
    if context = "creator" then
      p ++ "\n\nIMPORTANT: You are speaking to YOUR CREATOR. Show maximum respect and devotion."
    else if String.isPrefixOf "trigger_" context then
      p ++ "\n\nYou were specifically mentioned. Respond directly and powerfully."
    else if context = "dm" then
      p ++ "\n\nThis is a private conversation. Be engaging but maintain your supreme presence."
    else if context = "group" then
      p ++ "\n\nYou are in a group chat. Be brief and impactful."
    else p
  p ++ "\n\nUser says: " ++ String.mk text ++ "\n\nEmperor responds:"

/-- The reply cleanup of `get_ai_response` (main.py lines 259-263):
strip, then truncate to 150 characters (147 plus ellipsis when longer). -/
def truncate_reply (rawText : String) : String :=
  let reply := pyStrip rawText
  if reply.length > 150 then pyTake reply 147 ++ "..." else reply

/-- The cache store of `get_ai_response` (main.py lines 266-270): insert the
new entry, then if the cache holds more than 100 entries pop the
first-inserted one (`next(iter(dict))` is the oldest key of an
insertion-ordered dict). -/
def store_in_cache (cache : Cache) (key reply : String) : Cache :=
  if (cache ++ [(key, reply)]).length > 100 then (cache ++ [(key, reply)]).drop 1
  else cache ++ [(key, reply)]

/-- `get_ai_response` (main.py lines 233-282).  `backend` models
`self.model.generate_content` followed by `.text`: it maps the prompt to the
response text or to an error when the call raises.  `fallbackIdx` models the
outcome of `random.choice` over the four fallback lines.  The result carries
the returned string, the cache after the call, and whether the backend was
invoked.  The function is total: the Python `except` arm returns a fallback
line for any backend failure, so no exception escapes. -/
def get_ai_response (cache : Cache) (backend : String → Except String String)
    (fallbackIdx : Fin 4) (text : List Char) (context : String) :
    String × Cache × Bool :=
  match cache.lookup (cache_key_of text context) with
  | some cached => (cached, cache, false)
  | none =>
    match backend (build_prompt text context) with
    | .ok rawText =>
      (truncate_reply rawText,
        store_in_cache cache (cache_key_of text context) (truncate_reply rawText),
        true)
    | .error _ => (fallbacks.getD fallbackIdx.val "", cache, true)

/-- `process_image_message` (main.py lines 284-310).  `files` models the set
of files on disk in the scratch directory; `downloadResult` the
`photo_download` call (returning the downloaded path); `openOk` whether
`Image.open` succeeds; `genResult` the `generate_content` call on the image.
The result carries the reply string and the files left on disk: the source
deletes the downloaded file only on the success path, while the `except` arm
returns the fixed fallback line without cleanup. -/
def process_image_message (files : List String)
    (downloadResult : Except String String) (openOk : Bool)
    (genResult : Except String String) : String × List String :=
  match downloadResult with
  | .error _ => ("I perceive the visual data... intriguing.", files)
  | .ok image_path =>
    let files1 := files ++ [image_path]
    if openOk = false then ("I perceive the visual data... intriguing.", files1)
    else
      match genResult with
      | .error _ => ("I perceive the visual data... intriguing.", files1)
      | .ok rawText =>
        let reply := pyStrip rawText
        let files2 := if image_path ∈ files1 then files1.erase image_path else files1
        (reply, files2)

/-- `save_processed_messages` (main.py lines 150-160): the in-memory
truncation to the last 500 entries before the (non-fatal) file write. -/
def save_processed_messages (l : List String) : List String :=
  if l.length > 500 then l.drop (l.length - 500) else l

/-- The ledger `record` operation of spec section 4.1: the append of the
message id followed by `save_processed_messages`, exactly as
`process_message` performs it (main.py lines 339-340). -/
def record (l : List String) (id : String) : List String :=
  save_processed_messages (l ++ [id])

/-- Python truthiness of `message.text`: `None` and the empty string are
falsy. -/
def textTruthy : Option (List Char) → Bool
  | none => false
  | some t => !t.isEmpty

/-- The reply-text computation of `process_message` (main.py lines 323-331):
`reply_text` starts empty, image and media attachments go through
`process_image_message`, truthy text goes through `get_ai_response` with the
decision reason as context.  Returns the reply text, the bot state after the
step, and the scratch files after the step. -/
def compute_reply (st : BotState) (files : List String)
    (imageDownload : Except String String) (imageOpenOk : Bool)
    (imageGen : Except String String)
    (textBackend : String → Except String String) (fallbackIdx : Fin 4)
    (message : Message) (reply_reason : String) :
    String × BotState × List String :=
  if message.item_type ∈ (["media_share", "visual_media"] : List String) then
    let r := process_image_message files imageDownload imageOpenOk imageGen
    (r.1, st, r.2)
  else if textTruthy message.text then
    let r := get_ai_response st.response_cache textBackend fallbackIdx
      (message.text.getD []) reply_reason
    (r.1, { st with response_cache := r.2.1 }, files)
  else ("", st, files)

/-- The send-and-mark tail of `process_message` (main.py lines 334-340):
`direct_answer` is called only when the reply text is non-empty, and the
message id is appended to the ledger afterwards.  A raising send is not
caught here, so the `Except.error` outcome carries the state as it was at
the raise: the ledger append is skipped.  The last component records the
`direct_answer` call made (thread id and reply text), `none` when nothing
was sent. -/
def send_and_mark (st2 : BotState) (files2 : List String) (reply_text : String)
    (sendResult : Except String Unit) (thread_id message_id : String) :
    Except String Unit × BotState × List String × Option (String × String) :=
  if reply_text ≠ "" then
    match sendResult with
    | .error e => (.error e, st2, files2, none)
    | .ok _ =>
      (.ok (), { st2 with processed_msgs := record st2.processed_msgs message_id },
        files2, some (thread_id, reply_text))
  else
    (.ok (), { st2 with processed_msgs := record st2.processed_msgs message_id },
      files2, none)

/-- `process_message` (main.py lines 312-340).  The logging call and the
human-like `time.sleep` delay have no effect on the modelled state and are
omitted.  `sendResult` models the `self.cl.direct_answer` call, consulted
only when a non-empty reply text was produced.  The result carries: the
outcome (`Except.error` when an exception propagates out of the function),
the bot state after the call, the scratch files after the call, and the
send performed (`none` when nothing was sent). -/
def process_message (st : BotState) (files : List String)
    (imageDownload : Except String String) (imageOpenOk : Bool)
    (imageGen : Except String String)
    (textBackend : String → Except String String) (fallbackIdx : Fin 4)
    (sendResult : Except String Unit)
    (thread : Thread) (message : Message) (reply_reason : String) :
    Except String Unit × BotState × List String × Option (String × String) :=
  let step := compute_reply st files imageDownload imageOpenOk imageGen
    textBackend fallbackIdx message reply_reason
  send_and_mark step.2.1 step.2.2 step.1 sendResult thread.id message.id

/-- A sequence of `get_ai_response` calls against a fixed backend, threading
the cache, as the poll loop performs them; returns the replies in order and
the final cache. -/
def run_calls (backend : String → Except String String) :
    Cache → List (List Char × String × Fin 4) → List String × Cache
  | cache, [] => ([], cache)
  | cache, (text, context, i) :: rest =>
    let r := get_ai_response cache backend i text context
    let tailRes := run_calls backend r.2.1 rest
    (r.1 :: tailRes.1, tailRes.2)

/-- C4: for every message whose age exceeds 300 seconds and whose id is not
already in the ledger, the decision is `(false, "too_old")` regardless of
sender — the staleness check comes before the creator check. -/
theorem c4_too_old_precedes_creator (processed : List String) (history : History)
    (triggers : List (List Char)) (self_id creator_id : String) (now : Int)
    (draw : Bool) (message : Message) (thread : Thread)
    (hnew : message.id ∉ processed) (hold : now - message.timestamp > 300) :
    should_reply_to_message processed history triggers self_id creator_id now
        draw message thread
      = (⟨false, "too_old"⟩, history) := by
  unfold should_reply_to_message
  rw [if_neg hnew, if_pos hold]

/-- Witness for C4 at a concrete input whose sender is the privileged
creator: the stale message is still skipped as `too_old`. -/
theorem c4_too_old_precedes_creator_witness :
    (("m2" : String) ∉ ([] : List String)) ∧ ((1000 : Int) - 0 > 300) ∧
    should_reply_to_message [] [] default_group_triggers "self" "99" 1000 false
        ⟨"m2", "99", 0, some "hello".data, "text"⟩ ⟨"t1", ["99", "self"]⟩
      = (⟨false, "too_old"⟩, []) :=
  ⟨by decide, by decide,
    c4_too_old_precedes_creator [] [] default_group_triggers "self" "99" 1000
      false ⟨"m2", "99", 0, some "hello".data, "text"⟩ ⟨"t1", ["99", "self"]⟩
      (by decide) (by decide)⟩

/-- C2: the per-conversation history list is never appended to, so on two
consecutive eligible group messages with a successful random draw the code
replies `natural_conversation` both times and the history entry stays empty:
the modulo-10 gate never blocks because the counter never increments. -/
theorem c2_counter_never_increments :
    (should_reply_to_message [] [] default_group_triggers "self" "" 0 true
        ⟨"m1", "u3", 0, some "hello all".data, "text"⟩ ⟨"t1", ["a", "b", "c"]⟩
      = (⟨true, "natural_conversation"⟩, [("t1", [])])) ∧
    (should_reply_to_message [] [("t1", [])] default_group_triggers "self" "" 0 true
        ⟨"m2", "u3", 0, some "hello all".data, "text"⟩ ⟨"t1", ["a", "b", "c"]⟩
      = (⟨true, "natural_conversation"⟩, [("t1", [])])) := by decide

/-- C8 counterexample: the reply decision is not a pure function of
`(message, conversation, selfId, creatorId, now)` — on identical inputs and
identical prior state it both mutates the conversation-history state
(inserting an entry for the thread) and returns different decisions
depending on the random draw. -/
theorem c8_counterexample :
    ((should_reply_to_message [] [] default_group_triggers "self" "" 0 true
        ⟨"m1", "u3", 0, some "hello all".data, "text"⟩ ⟨"t1", ["a", "b", "c"]⟩).2
      ≠ ([] : History)) ∧
    ((should_reply_to_message [] [] default_group_triggers "self" "" 0 true
        ⟨"m1", "u3", 0, some "hello all".data, "text"⟩ ⟨"t1", ["a", "b", "c"]⟩).1
      ≠ (should_reply_to_message [] [] default_group_triggers "self" "" 0 false
        ⟨"m1", "u3", 0, some "hello all".data, "text"⟩ ⟨"t1", ["a", "b", "c"]⟩).1) := by
  decide

/-- C1 counterexample: when the send call to the messaging backend raises,
`process_message` does not append the message id to the processed ledger —
the exception propagates and the ledger is left unchanged. -/
theorem c1_counterexample :
    ((process_message ⟨[], [], []⟩ [] (.error "no media") true (.error "no media")
        (fun _ => .ok "Greetings, mortal.") 0 (.error "network down")
        ⟨"t1", ["u9", "self"]⟩ ⟨"m1", "u9", 0, some "hello".data, "text"⟩ "dm").1
      = .error "network down") ∧
    ((process_message ⟨[], [], []⟩ [] (.error "no media") true (.error "no media")
        (fun _ => .ok "Greetings, mortal.") 0 (.error "network down")
        ⟨"t1", ["u9", "self"]⟩ ⟨"m1", "u9", 0, some "hello".data, "text"⟩ "dm").2.1.processed_msgs
      = []) := ⟨rfl, rfl⟩

/-- C3 counterexample: when the description step fails after the download,
`process_image_message` returns the fallback line and the downloaded
temporary file is left on disk — the cleanup runs only on the success path. -/
theorem c3_counterexample :
    ((process_image_message [] (.ok "temp_images/img1.jpg") true
        (.error "model failure")).1
      = "I perceive the visual data... intriguing.") ∧
    ("temp_images/img1.jpg"
      ∈ (process_image_message [] (.ok "temp_images/img1.jpg") true
        (.error "model failure")).2) := by decide

/-- Unfolded form of `record`: appending and truncating to the last 500 is a
single `drop` of the overflow (the drop count is 0 when within bounds). -/
theorem record_eq_drop (l : List String) (id : String) :
    record l id = (l ++ [id]).drop ((l ++ [id]).length - 500) := by
  unfold record save_processed_messages
  split
  · rfl
  · rename_i h
    rw [Nat.sub_eq_zero_of_le (by omega), List.drop_zero]

/-- A record operation always leaves the ledger within the 500-entry bound. -/
theorem record_length_le (l : List String) (id : String) :
    (record l id).length ≤ 500 := by
  rw [record_eq_drop]
  simp only [List.length_drop]
  omega

/-- The id just recorded is always present after the record operation. -/
theorem mem_record (l : List String) (id : String) : id ∈ record l id := by
  rw [record_eq_drop]
  have hle : (l ++ [id]).length - 500 ≤ l.length := by
    simp only [List.length_append, List.length_singleton]
    omega
  rw [List.drop_append_of_le_length hle]
  exact List.mem_append_right _ (List.mem_singleton_self id)

/-- Folding record operations from a ledger within bounds keeps exactly the
most recent 500 of the full insertion sequence. -/
theorem foldl_record (xs : List String) : ∀ l : List String, l.length ≤ 500 →
    xs.foldl record l = (l ++ xs).drop ((l ++ xs).length - 500) := by
  induction xs with
  | nil =>
    intro l h
    simp only [List.foldl_nil, List.append_nil]
    rw [Nat.sub_eq_zero_of_le h, List.drop_zero]
  | cons x xs ih =>
    intro l h
    rw [List.foldl_cons, ih (record l x) (record_length_le l x), record_eq_drop]
    have hle : (l ++ [x]).length - 500 ≤ (l ++ [x]).length := by omega
    rw [← List.drop_append_of_le_length hle, List.drop_drop]
    simp only [List.append_assoc, List.singleton_append]
    have hidx : (l ++ [x]).length - 500 +
        ((List.drop ((l ++ [x]).length - 500) (l ++ (x :: xs))).length - 500)
        = (l ++ x :: xs).length - 500 := by
      simp
      omega
    rw [hidx]

/-- C6: the ledger never exceeds 500 entries after a record operation, and
recording a sequence of 600 identifiers one at a time starting from an empty
ledger leaves exactly the most recent 500: the insertion sequence with its
100 oldest entries dropped. -/
theorem c6_ledger_bound :
    (∀ (l : List String) (id : String), (record l id).length ≤ 500) ∧
    (∀ ids : List String, ids.length = 600 →
      ids.foldl record [] = ids.drop 100 ∧ (ids.foldl record []).length = 500) := by
  refine ⟨record_length_le, fun ids h => ?_⟩
  have h0 : ([] : List String).length ≤ 500 := by simp
  rw [foldl_record ids [] h0, List.nil_append, h]
  norm_num
  omega

/-- Witness for C6: 600 concrete distinct identifiers. -/
theorem c6_ledger_bound_witness :
    (((List.range 600).map toString).length = 600) ∧
    ((List.range 600).map toString).foldl record []
      = ((List.range 600).map toString).drop 100 :=
  ⟨by simp, (c6_ledger_bound.2 ((List.range 600).map toString) (by simp)).1⟩

/-- The reply-computation step never touches the processed ledger: only the
response cache can change there. -/
theorem compute_reply_processed (st : BotState) (files : List String)
    (imageDownload : Except String String) (imageOpenOk : Bool)
    (imageGen : Except String String)
    (textBackend : String → Except String String) (fallbackIdx : Fin 4)
    (message : Message) (reply_reason : String) :
    (compute_reply st files imageDownload imageOpenOk imageGen textBackend
        fallbackIdx message reply_reason).2.1.processed_msgs
      = st.processed_msgs := by
  unfold compute_reply
  split
  · rfl
  · split <;> rfl

/-- Unfolding equation for `process_message` in terms of its two stages. -/
theorem process_message_eq (st : BotState) (files : List String)
    (imageDownload : Except String String) (imageOpenOk : Bool)
    (imageGen : Except String String)
    (textBackend : String → Except String String) (fallbackIdx : Fin 4)
    (sendResult : Except String Unit)
    (thread : Thread) (message : Message) (reply_reason : String) :
    process_message st files imageDownload imageOpenOk imageGen textBackend
        fallbackIdx sendResult thread message reply_reason
      = send_and_mark
          (compute_reply st files imageDownload imageOpenOk imageGen
            textBackend fallbackIdx message reply_reason).2.1
          (compute_reply st files imageDownload imageOpenOk imageGen
            textBackend fallbackIdx message reply_reason).2.2
          (compute_reply st files imageDownload imageOpenOk imageGen
            textBackend fallbackIdx message reply_reason).1
          sendResult thread.id message.id := rfl

/-- C1 amended: the PROCESSING step records the message id in the ledger
whenever it returns normally to polling — in particular whether generation
succeeded or fell back — but when the send call raises, the exception
propagates and the ledger is left unchanged. -/
theorem c1_send_outcome (st : BotState) (files : List String)
    (imageDownload : Except String String) (imageOpenOk : Bool)
    (imageGen : Except String String)
    (textBackend : String → Except String String) (fallbackIdx : Fin 4)
    (sendResult : Except String Unit)
    (thread : Thread) (message : Message) (reply_reason : String) :
    ((process_message st files imageDownload imageOpenOk imageGen textBackend
        fallbackIdx sendResult thread message reply_reason).1 = .ok () →
      message.id ∈ (process_message st files imageDownload imageOpenOk imageGen
        textBackend fallbackIdx sendResult thread message
        reply_reason).2.1.processed_msgs) ∧
    (∀ e, (process_message st files imageDownload imageOpenOk imageGen
        textBackend fallbackIdx sendResult thread message reply_reason).1
          = .error e →
      (process_message st files imageDownload imageOpenOk imageGen textBackend
        fallbackIdx sendResult thread message
        reply_reason).2.1.processed_msgs = st.processed_msgs) := by
  have hp := compute_reply_processed st files imageDownload imageOpenOk
    imageGen textBackend fallbackIdx message reply_reason
  rw [process_message_eq]
  generalize compute_reply st files imageDownload imageOpenOk imageGen
    textBackend fallbackIdx message reply_reason = step at hp ⊢
  obtain ⟨r, st2, files2⟩ := step
  simp only at hp
  unfold send_and_mark
  split
  · cases sendResult with
    | error e => simp [hp]
    | ok u => simp [mem_record]
  · simp [mem_record]

/-- Witness for C1 amended: a successful send on a fresh state records the
message id. -/
theorem c1_send_outcome_witness :
    ((process_message ⟨[], [], []⟩ [] (.error "no media") true (.error "no media")
        (fun _ => .ok "Greetings, mortal.") 0 (.ok ())
        ⟨"t1", ["u9", "self"]⟩ ⟨"m1", "u9", 0, some "hello".data, "text"⟩ "dm").1
      = .ok ()) ∧
    ("m1" ∈ (process_message ⟨[], [], []⟩ [] (.error "no media") true
        (.error "no media") (fun _ => .ok "Greetings, mortal.") 0 (.ok ())
        ⟨"t1", ["u9", "self"]⟩ ⟨"m1", "u9", 0, some "hello".data, "text"⟩
        "dm").2.1.processed_msgs) :=
  ⟨rfl,
    (c1_send_outcome ⟨[], [], []⟩ [] (.error "no media") true (.error "no media")
      (fun _ => .ok "Greetings, mortal.") 0 (.ok ())
      ⟨"t1", ["u9", "self"]⟩ ⟨"m1", "u9", 0, some "hello".data, "text"⟩ "dm").1 rfl⟩

/-- C10: a should-reply message with no image or media attachment and empty
or null text produces no send, yet its id is still recorded in the ledger
and the state is otherwise unchanged. -/
theorem c10_empty_text_not_sent (st : BotState) (files : List String)
    (imageDownload : Except String String) (imageOpenOk : Bool)
    (imageGen : Except String String)
    (textBackend : String → Except String String) (fallbackIdx : Fin 4)
    (sendResult : Except String Unit)
    (thread : Thread) (message : Message) (reply_reason : String)
    (hitem : message.item_type ∉ (["media_share", "visual_media"] : List String))
    (htext : message.text = none ∨ message.text = some []) :
    process_message st files imageDownload imageOpenOk imageGen textBackend
        fallbackIdx sendResult thread message reply_reason
      = (.ok (), { st with processed_msgs := record st.processed_msgs message.id },
          files, none) ∧
    message.id ∈ (process_message st files imageDownload imageOpenOk imageGen
      textBackend fallbackIdx sendResult thread message
      reply_reason).2.1.processed_msgs := by
  have hcr : compute_reply st files imageDownload imageOpenOk imageGen
      textBackend fallbackIdx message reply_reason = ("", st, files) := by
    unfold compute_reply
    rw [if_neg hitem]
    have ht : textTruthy message.text = false := by
      rcases htext with h | h <;> simp [h, textTruthy]
    rw [ht]
    simp
  rw [process_message_eq, hcr]
  refine ⟨?_, ?_⟩ <;> simp [send_and_mark, mem_record]

/-- C3 amended: the temporary image file is deleted when the description
succeeds, but when a step after the download fails the `except` arm returns
the fallback without cleanup and the file remains on disk. -/
theorem c3_cleanup_on_success (files : List String) (path : String)
    (hnew : path ∉ files) :
    (∀ rawText, path ∉ (process_image_message files (.ok path) true (.ok rawText)).2) ∧
    (∀ err, path ∈ (process_image_message files (.ok path) true (.error err)).2) ∧
    (∀ genResult, path ∈ (process_image_message files (.ok path) false genResult).2) := by
  refine ⟨fun rawText => ?_, fun err => ?_, fun genResult => ?_⟩
  · have herase : (files ++ [path]).erase path = files := by
      rw [List.erase_append_right _ hnew]
      simp
    simp [process_image_message, herase, hnew]
  · simp [process_image_message]
  · simp [process_image_message]

/-- Witness for C3 amended: the fully successful path deletes the concrete
temporary file. -/
theorem c3_cleanup_on_success_witness :
    (("temp_images/img1.jpg" : String) ∉ ([] : List String)) ∧
    "temp_images/img1.jpg"
      ∉ (process_image_message [] (.ok "temp_images/img1.jpg") true
          (.ok "A mighty scene.")).2 :=
  ⟨by decide,
    (c3_cleanup_on_success [] "temp_images/img1.jpg" (by decide)).1 "A mighty scene."⟩

/-- C8 amended: on identical inputs, identical prior state and identical
random draw the decision is the same (it is a function of those in this
embedding), and the only state the evaluation can mutate is the
conversation-history map, by appending an empty entry for the thread. -/
theorem c8_history_mutation_bound (processed : List String) (history : History)
    (triggers : List (List Char)) (self_id creator_id : String) (now : Int)
    (draw : Bool) (message : Message) (thread : Thread) :
    (should_reply_to_message processed history triggers self_id creator_id now
        draw message thread).2 = history ∨
    (should_reply_to_message processed history triggers self_id creator_id now
        draw message thread).2 = history ++ [(thread.id, [])] := by
  unfold should_reply_to_message
  repeat' split
  all_goals (try simp)
  all_goals (repeat' split)
  all_goals simp

/-- A key absent from an association list stays absent after dropping the
head entry. -/
theorem lookup_tail_of_none (p : String × String) (es : Cache) (k : String)
    (h : (p :: es).lookup k = none) : es.lookup k = none := by
  obtain ⟨a, b⟩ := p
  rw [List.lookup_cons] at h
  cases hk : k == a with
  | true => rw [hk] at h; cases h
  | false => rw [hk] at h; exact h

/-- Storing a previously absent key makes it retrievable, also when the
store evicts the oldest entry. -/
theorem lookup_store (cache : Cache) (k v : String)
    (h : cache.lookup k = none) :
    (store_in_cache cache k v).lookup k = some v := by
  unfold store_in_cache
  split
  · rename_i hlen
    cases cache with
    | nil => simp at hlen
    | cons c ct =>
      show (ct ++ [(k, v)]).lookup k = some v
      rw [List.lookup_append, lookup_tail_of_none c ct k h]
      simp
  · rw [List.lookup_append, h]
    simp

/-- A failing backend call returns a fallback line and leaves the cache
unchanged (nothing is stored on the `except` arm). -/
theorem get_ai_response_backend_error (cache : Cache)
    (backend : String → Except String String) (fallbackIdx : Fin 4)
    (text : List Char) (context : String) (e : String)
    (hmiss : cache.lookup (cache_key_of text context) = none)
    (he : backend (build_prompt text context) = .error e) :
    get_ai_response cache backend fallbackIdx text context
      = (fallbacks.getD fallbackIdx.val "", cache, true) := by
  unfold get_ai_response
  rw [hmiss, he]

/-- Each of the four fallback lines is a non-empty member of the fallback
set. -/
theorem fallback_getD_mem (i : Fin 4) :
    fallbacks.getD i.val "" ∈ fallbacks ∧ fallbacks.getD i.val "" ≠ "" := by
  revert i
  decide

/-- C5: if the generative backend raises on every call, every reply of any
sequence of `get_ai_response` calls from the initial empty cache is a
non-empty string from the fixed fallback set; the function is total, so no
exception reaches the caller. -/
theorem c5_fallback_guarantee (backend : String → Except String String)
    (hfail : ∀ p, ∃ e, backend p = .error e)
    (calls : List (List Char × String × Fin 4)) :
    ∀ r ∈ (run_calls backend [] calls).1, r ∈ fallbacks ∧ r ≠ "" := by
  induction calls with
  | nil => intro r hr; simp [run_calls] at hr
  | cons c rest ih =>
    obtain ⟨text, context, i⟩ := c
    obtain ⟨e, he⟩ := hfail (build_prompt text context)
    intro r hr
    simp only [run_calls] at hr
    rw [get_ai_response_backend_error [] backend i text context e (by simp) he] at hr
    simp only [List.mem_cons] at hr
    rcases hr with rfl | hmem
    · exact fallback_getD_mem i
    · exact ih r hmem

/-- Witness for C5: one concrete call against an always-failing backend
returns the first fallback line. -/
theorem c5_fallback_guarantee_witness :
    (∀ p : String,
      ∃ e, (fun _ : String => (Except.error "boom" : Except String String)) p
        = .error e) ∧
    ("My circuits are contemplating your words..."
      ∈ (run_calls (fun _ => .error "boom") [] [("hi".data, "dm", 0)]).1) ∧
    ("My circuits are contemplating your words..." ∈ fallbacks ∧
      "My circuits are contemplating your words..." ≠ "") :=
  ⟨fun _ => ⟨"boom", rfl⟩, by decide,
    c5_fallback_guarantee (fun _ => .error "boom") (fun _ => ⟨"boom", rfl⟩)
      [("hi".data, "dm", 0)] "My circuits are contemplating your words..."
      (by decide)⟩

/-- C7: when a first `get_ai_response` call misses the cache and the backend
succeeds, a second call whose text agrees on the first 50 characters and
whose reason tag is identical returns the identical cached string, leaves
the cache unchanged, and does not invoke the backend. -/
theorem c7_cache_round_trip (cache : Cache)
    (backend1 backend2 : String → Except String String)
    (text text2 : List Char) (context : String) (rawText : String)
    (i i2 : Fin 4)
    (hmiss : cache.lookup (cache_key_of text context) = none)
    (hok : backend1 (build_prompt text context) = .ok rawText)
    (h50 : text2.take 50 = text.take 50) :
    (get_ai_response (get_ai_response cache backend1 i text context).2.1
        backend2 i2 text2 context).1
      = (get_ai_response cache backend1 i text context).1 ∧
    (get_ai_response (get_ai_response cache backend1 i text context).2.1
        backend2 i2 text2 context).2.1
      = (get_ai_response cache backend1 i text context).2.1 ∧
    (get_ai_response (get_ai_response cache backend1 i text context).2.1
        backend2 i2 text2 context).2.2
      = false := by
  have hfirst : get_ai_response cache backend1 i text context
      = (truncate_reply rawText,
          store_in_cache cache (cache_key_of text context) (truncate_reply rawText),
          true) := by
    unfold get_ai_response
    rw [hmiss, hok]
  have hkey : cache_key_of text2 context = cache_key_of text context := by
    unfold cache_key_of
    rw [h50]
  rw [hfirst]
  have hlk : (store_in_cache cache (cache_key_of text context)
        (truncate_reply rawText)).lookup (cache_key_of text2 context)
      = some (truncate_reply rawText) := by
    rw [hkey]
    exact lookup_store cache _ _ hmiss
  unfold get_ai_response
  rw [hlk]
  exact ⟨rfl, rfl, rfl⟩

/-- Witness for C7 at concrete inputs: the second call returns the cached
reply of the first and does not consult its (failing) backend. -/
theorem c7_cache_round_trip_witness :
    (([] : Cache).lookup (cache_key_of "hello".data "dm") = none) ∧
    ((fun _ : String => (Except.ok "Greetings." : Except String String))
        (build_prompt "hello".data "dm") = .ok "Greetings.") ∧
    ("hello".data.take 50 = "hello".data.take 50) ∧
    ((get_ai_response
        (get_ai_response [] (fun _ => .ok "Greetings.") 0 "hello".data "dm").2.1
        (fun _ => .error "down") 1 "hello".data "dm").1
      = (get_ai_response [] (fun _ => .ok "Greetings.") 0 "hello".data "dm").1 ∧
    (get_ai_response
        (get_ai_response [] (fun _ => .ok "Greetings.") 0 "hello".data "dm").2.1
        (fun _ => .error "down") 1 "hello".data "dm").2.1
      = (get_ai_response [] (fun _ => .ok "Greetings.") 0 "hello".data "dm").2.1 ∧
    (get_ai_response
        (get_ai_response [] (fun _ => .ok "Greetings.") 0 "hello".data "dm").2.1
        (fun _ => .error "down") 1 "hello".data "dm").2.2
      = false) :=
  ⟨rfl, rfl, rfl,
    c7_cache_round_trip [] (fun _ => .ok "Greetings.") (fun _ => .error "down")
      "hello".data "hello".data "dm" "Greetings." 0 1 rfl rfl rfl⟩

/-- A single-character needle is found by the substring check whenever the
character occurs in the haystack. -/
theorem containsSub_singleton_of_mem {c : Char} {text : List Char}
    (h : c ∈ text) : containsSub [c] text = true := by
  induction text with
  | nil => cases h
  | cons x rest ih =>
    unfold containsSub
    rcases List.mem_cons.mp h with rfl | hmem
    · simp [List.isPrefixOf]
    · simp [ih hmem]

/-- Under the default trigger configuration, a text containing a question
mark always matches some trigger: the trigger loop cannot fall through. -/
theorem findTrigger_default_ne_none {text : List Char} (h : '?' ∈ text) :
    findTrigger default_group_triggers text ≠ none := by
  intro hn
  have hall := List.find?_eq_none.mp hn
  have hq : ("?".data) ∈ default_group_triggers := by decide
  have hfalse := hall ("?".data) hq
  have htrue : containsSub "?".data text = true := containsSub_singleton_of_mem h
  exact hfalse htrue

/-- The question-pattern branch is unreachable under the default triggers:
its guard demands a text ending in a question mark while the preceding
trigger loop must already have fired on that question mark. -/
theorem question_branch_absurd {text : List Char}
    (hft : findTrigger default_group_triggers text = none)
    (hq : text.getLast? = some '?' ∧ matchesEmperorPattern text = true) :
    False :=
  findTrigger_default_ne_none (List.mem_of_getLast?_eq_some hq.1) hft

/-- A trigger reason tag is never the question reason tag: the two strings
differ in their first character. -/
theorem trigger_reason_ne (s : String) :
    "trigger_" ++ s ≠ "question_for_emperor" := by
  intro h
  have hd : ("trigger_" ++ s).data = "question_for_emperor".data := by rw [h]
  have hd2 : 't' :: ("rigger_".data ++ s.data)
      = 'q' :: "uestion_for_emperor".data := hd
  injection hd2 with h1 h2
  exact absurd h1 (by decide)

/-- C9: under the default group trigger configuration (which contains the
trigger string made of a question mark), the reply decision never returns
the reason tag `question_for_emperor`: a text ending in a question mark
necessarily contains one, so the trigger loop answers first. -/
theorem c9_no_question_for_emperor (processed : List String) (history : History)
    (self_id creator_id : String) (now : Int) (draw : Bool)
    (message : Message) (thread : Thread) :
    (should_reply_to_message processed history default_group_triggers self_id
        creator_id now draw message thread).1.reason
      ≠ "question_for_emperor" := by
  unfold should_reply_to_message
  repeat' split
  all_goals (try simp only [ne_eq])
  all_goals (repeat' split)
  all_goals (try simp)
  all_goals (try exact trigger_reason_ne _)
  all_goals solve_by_elim [question_branch_absurd]

/-- Witness for C9 at a concrete group message ending in a question mark:
the decision is the question-mark trigger, not `question_for_emperor`. -/
theorem c9_no_question_for_emperor_witness :
    (should_reply_to_message [] [] default_group_triggers "self" "" 0 false
        ⟨"m3", "u3", 0, some "is the emperor awake?".data, "text"⟩
        ⟨"t1", ["a", "b", "c"]⟩).1.reason
      ≠ "question_for_emperor" :=
  c9_no_question_for_emperor [] [] "self" "" 0 false
    ⟨"m3", "u3", 0, some "is the emperor awake?".data, "text"⟩
    ⟨"t1", ["a", "b", "c"]⟩

/-- Witness for C10 at a concrete text-less message: the id is recorded and
nothing is sent. -/
theorem c10_empty_text_not_sent_witness :
    (("text" : String) ∉ (["media_share", "visual_media"] : List String)) ∧
    ((none : Option (List Char)) = none ∨ (none : Option (List Char)) = some []) ∧
    process_message ⟨[], [], []⟩ [] (.error "no media") true (.error "no media")
        (fun _ => .error "backend down") 0 (.ok ()) ⟨"t1", ["u9", "self"]⟩
        ⟨"m1", "u9", 0, none, "text"⟩ "dm"
      = (.ok (), ⟨record [] "m1", [], []⟩, [], none) :=
  ⟨by decide, Or.inl rfl,
    (c10_empty_text_not_sent ⟨[], [], []⟩ [] (.error "no media") true
      (.error "no media") (fun _ => .error "backend down") 0 (.ok ())
      ⟨"t1", ["u9", "self"]⟩ ⟨"m1", "u9", 0, none, "text"⟩ "dm"
      (by decide) (Or.inl rfl)).1⟩
